import Mathlib

/-!
Verification of the root-cause-analysis ranking pipeline of the
petshop_dataset repository.

The repository holds two implementations of the shared interface
`analyze(graph, target_node, target_metric, target_statistic,
normal_metrics, abnormal_metrics)`:

* `src/code/kstest.py` (`make_kstest` / `functional_analyze_root_causes`):
  the statistical ranking pipeline, embedded below over tables of rational
  numbers.  The external collaborator `reduce_df` is not part of the
  repository, so the embedding takes the already-reduced tables as inputs;
  every claim is phrased over the reduced column sets, which matches this
  choice.
* `src/code/hollow_rca.py` (`make_hollow_rca` / `analyze_root_causes`):
  a stub returning `root_cause_top_k` results with random scores; the
  stream of `np.random.rand()` draws is modelled as an explicit function
  argument `rng : Nat -> Rat`.

Modelling notes, justified against the source and its libraries:

* A pandas DataFrame is modelled column-orientedly: a list of column
  names, a row count, and a map from column name to the list of the
  column's values (time-ordered).  The pandas invariant that every column
  has exactly `nrows` values is the `DataFrame.WF` predicate; it is
  assumed where a proof needs it.
* `list(set(a).intersection(b))` iterates a Python set, whose order is
  unspecified; the embedding fixes the order of the first table's columns.
  No proved statement depends on this order.
* `MinMaxScaler.fit_transform` scales each column by
  `(x - min) / (max - min)`, replacing a zero range by 1
  (`sklearn _handle_zeros_in_scale`), and raises `ValueError` when the
  input has zero rows or zero columns (`sklearn check_array`,
  `ensure_min_samples=1` / `ensure_min_features=1`).  These two
  validation failures are the `ScalerError` outcomes of the embedding.
* Percentage change divides by the first row of the window; pandas float
  division by zero yields `inf`, `-inf` or `NaN` without raising, so the
  per-column change is a four-valued `PChange`.  `Series.sort_values`
  with `ascending=False` orders non-NaN values descending and places NaN
  last, which is exactly the `pcGe` order.
* `scipy.stats.ks_2samp` returns the two-sample Kolmogorov-Smirnov
  statistic: the maximum over all observed points `z` of
  `|#(x <= z)/n1 - #(y <= z)/n2|`; the p-value is discarded by the code.
* Python `sorted(..., key=score, reverse=True)` is a stable descending
  sort; any stable sort of the same total preorder yields the same list,
  so it is embedded as `List.insertionSort` with the reflexive order
  `scoreRel`.  `Series.sort_values` (quicksort, not stable) only needs to
  be *some* sort of the percentage-change order: no statement proved
  below depends on its tie order, and the embedding reuses
  `List.insertionSort` there.
* `print` diagnostics are modelled as a list of `Diagnostic` values
  accompanying the returned value.
-/

/-- Directed dependency graph of services.  The argument is accepted and
ignored by both implementations, so only its presence matters. -/
structure DiGraph where
  edges : List (String × String)

/-- Column-oriented model of a (reduced) pandas DataFrame. -/
structure DataFrame where
  cols : List String
  nrows : Nat
  data : String → List ℚ

/-- Well-formedness: every listed column holds exactly `nrows` values. -/
def DataFrame.WF (df : DataFrame) : Prop :=
  ∀ c ∈ df.cols, (df.data c).length = df.nrows

/-- Result triple produced by both implementations (`rca_task.PotentialRootCause`). -/
structure PotentialRootCause where
  node : String
  metric : String
  score : ℚ
deriving DecidableEq

/-- Diagnostic text printed by `functional_analyze_root_causes`. -/
inductive Diagnostic
  | missingInAbnormal (cols : List String)
  | missingInNormal (cols : List String)
  | referenceMissing (ref : String)
deriving DecidableEq

/-- Exceptions raised by `MinMaxScaler.fit_transform` (sklearn `check_array`). -/
inductive ScalerError
  | noSamples
  | noFeatures
deriving DecidableEq

instance : DecidableEq (Except ScalerError (List PotentialRootCause))
  | Except.ok a, Except.ok b =>
    if h : a = b then isTrue (by rw [h]) else isFalse (by intro hh; cases hh; exact h rfl)
  | Except.ok _, Except.error _ => isFalse (by intro hh; cases hh)
  | Except.error _, Except.ok _ => isFalse (by intro hh; cases hh)
  | Except.error e, Except.error f =>
    if h : e = f then isTrue (by rw [h]) else isFalse (by intro hh; cases hh; exact h rfl)

/-- Return value of the embedded `functional_analyze_root_causes`: the
emitted diagnostics together with either the returned list or the
uncaught exception. -/
structure AnalyzeResult where
  diags : List Diagnostic
  result : Except ScalerError (List PotentialRootCause)
deriving DecidableEq

/-- Fixed reference column hard-coded in the source (`petsite_column = 'PetSite'`). -/
def petsiteColumn : String := "PetSite"

/-- Common columns of the two reduced tables
(`list(set(normal).intersection(abnormal))`, order fixed as explained above). -/
def commonColumns (n a : DataFrame) : List String :=
  n.cols.filter (fun c => c ∈ a.cols)

/-- Columns of the normal table missing from the abnormal table. -/
def missingInAbnormal (n a : DataFrame) : List String :=
  n.cols.filter (fun c => c ∉ a.cols)

/-- Columns of the abnormal table missing from the normal table. -/
def missingInNormal (n a : DataFrame) : List String :=
  a.cols.filter (fun c => c ∉ n.cols)

/-- Restriction to the common columns followed by
`pd.concat([normal, abnormal], ignore_index=True)`. -/
def combinedDF (n a : DataFrame) : DataFrame :=
  { cols := commonColumns n a
    nrows := n.nrows + a.nrows
    data := fun c => n.data c ++ a.data c }

/-- Minimum of a list of rationals (0 on the empty list, unreached in use). -/
def listMin : List ℚ → ℚ
  | [] => 0
  | x :: xs => xs.foldl min x

/-- Maximum of a list of rationals (0 on the empty list, unreached in use). -/
def listMax : List ℚ → ℚ
  | [] => 0
  | x :: xs => xs.foldl max x

/-- Per-column min-max scaling of `MinMaxScaler`; a zero range is
replaced by 1 (sklearn `_handle_zeros_in_scale`). -/
def minmaxScale (xs : List ℚ) : List ℚ :=
  let mn := listMin xs
  let range := if listMax xs - mn = 0 then 1 else listMax xs - mn
  xs.map (fun x => (x - mn) / range)

/-- Combined table after `MinMaxScaler.fit_transform` (statistics taken
across the whole combined table, per column). -/
def scaledDF (n a : DataFrame) : DataFrame :=
  { cols := (combinedDF n a).cols
    nrows := (combinedDF n a).nrows
    data := fun c => minmaxScale ((combinedDF n a).data c) }

/-- Window size of `result_df.tail(5)`. -/
def tailLen : Nat := 5

/-- Trailing window `result_df.tail(5)`: the last (at most) five rows. -/
def windowDF (n a : DataFrame) : DataFrame :=
  { cols := (scaledDF n a).cols
    nrows := min (scaledDF n a).nrows tailLen
    data := fun c =>
      ((scaledDF n a).data c).drop (((scaledDF n a).data c).length - tailLen) }

/-- Value of a percentage-change entry: pandas float division by zero
produces `inf`, `-inf` or `NaN` instead of raising. -/
inductive PChange
  | nan
  | ninf
  | fin (q : ℚ)
  | pinf
deriving DecidableEq

/-- Division as performed by pandas on float Series. -/
def fdiv (num den : ℚ) : PChange :=
  if den = 0 then
    if num = 0 then PChange.nan
    else if 0 < num then PChange.pinf
    else PChange.ninf
  else PChange.fin (num / den)

/-- Multiplication of a pandas float by the literal 100 (absorbed by
`inf`, `-inf` and `NaN`). -/
def pcTimes100 : PChange → PChange
  | PChange.fin q => PChange.fin (q * 100)
  | p => p

/-- Percentage change of one column of the window: percentage decrease
`(first - last) / first * 100` for the metric named availability,
percentage increase `(last - first) / first * 100` otherwise
(`result_df.iloc[0]` and `result_df.iloc[-1]`). -/
def percentageChange (df : DataFrame) (target_metric : String) (c : String) : PChange :=
  let first := (df.data c).headD 0
  let last := (df.data c).getLastD 0
  if target_metric = "availability" then
    pcTimes100 (fdiv (first - last) first)
  else
    pcTimes100 (fdiv (last - first) first)

/-- Descending order used by `sort_values(ascending=False)`: `inf`
first, finite values by `≥`, `-inf` after them, `NaN` last
(`na_position='last'`). -/
def pcGe : PChange → PChange → Bool
  | PChange.nan, PChange.nan => true
  | PChange.nan, _ => false
  | _, PChange.nan => true
  | PChange.pinf, _ => true
  | PChange.fin _, PChange.pinf => false
  | PChange.ninf, PChange.pinf => false
  | PChange.fin a, PChange.fin b => decide (b ≤ a)
  | PChange.fin _, PChange.ninf => true
  | PChange.ninf, PChange.fin _ => false
  | PChange.ninf, PChange.ninf => true

/-- Column order induced by descending percentage change. -/
def pcKeyRel (df : DataFrame) (tm : String) (c1 c2 : String) : Prop :=
  pcGe (percentageChange df tm c1) (percentageChange df tm c2) = true

instance (df : DataFrame) (tm : String) : DecidableRel (pcKeyRel df tm) :=
  fun _ _ => Bool.decEq _ _

/-- Columns of the window sorted by descending percentage change
(`percentage_change.sort_values(ascending=False)`). -/
def sortedColumnsPercentage (df : DataFrame) (tm : String) : List String :=
  List.insertionSort (pcKeyRel df tm) df.cols

/-- Candidate set `sorted_columns_percentage.head(10).index`. -/
def topColumnsPercentage (n a : DataFrame) (tm : String) : List String :=
  (sortedColumnsPercentage (windowDF n a) tm).take 10

/-- Number of sample values at most `z` (`searchsorted(..., side='right')`). -/
def ecdfCount (xs : List ℚ) (z : ℚ) : Nat := xs.countP (fun x => decide (x ≤ z))

/-- Two-sample Kolmogorov-Smirnov statistic of `scipy.stats.ks_2samp`:
largest absolute difference of the two empirical CDFs, attained at an
observed point. -/
def ksStat (xs ys : List ℚ) : ℚ :=
  ((xs ++ ys).map (fun z =>
    |(ecdfCount xs z : ℚ) / (xs.length : ℚ) - (ecdfCount ys z : ℚ) / (ys.length : ℚ)|)).foldr max 0

/-- Insertion-ordered `ks_scores` dictionary: every candidate column
except the reference one, with score `1 / (1 + ks_statistic)`. -/
def ksScoreList (n a : DataFrame) (tm : String) : List (String × ℚ) :=
  ((topColumnsPercentage n a tm).filter (fun c => c ≠ petsiteColumn)).map
    (fun c => (c, 1 / (1 + ksStat ((windowDF n a).data petsiteColumn) ((windowDF n a).data c))))

/-- Descending-score order of `sorted(..., key=score, reverse=True)`. -/
def scoreRel (p q : String × ℚ) : Prop := q.2 ≤ p.2

instance : DecidableRel scoreRel :=
  fun p q => inferInstanceAs (Decidable (q.2 ≤ p.2))

/-- Stable descending sort by score (Python `sorted` is stable). -/
def sortedByScore (l : List (String × ℚ)) : List (String × ℚ) :=
  List.insertionSort scoreRel l

/-- Packaging of a scored column as a result triple. -/
def toRootCause (tm : String) (p : String × ℚ) : PotentialRootCause :=
  { node := p.1, metric := tm, score := p.2 }

/-- Ranked result list built in the main branch of the source. -/
def rankedCauses (n a : DataFrame) (tm : String) : List PotentialRootCause :=
  (sortedByScore (ksScoreList n a tm)).map (toRootCause tm)

/-- Embedding of `functional_analyze_root_causes` of `src/code/kstest.py`,
applied to the already-reduced tables.  Mirrors the source order:
diagnostics for asymmetric columns, restriction to the intersection,
concatenation, `MinMaxScaler.fit_transform` (raising on a 0-row or
0-column table), `tail(5)`, percentage change, top-10 selection, the
reference-column check (empty return plus diagnostic when absent), KS
scoring and stable descending sort. -/
def functional_analyze_root_causes (graph : DiGraph)
    (target_node target_metric target_statistic : String)
    (normal_metrics abnormal_metrics : DataFrame) : AnalyzeResult :=
  let mia := missingInAbnormal normal_metrics abnormal_metrics
  let mina := missingInNormal normal_metrics abnormal_metrics
  let diags :=
    (if mia = [] then [] else [Diagnostic.missingInAbnormal mia]) ++
    (if mina = [] then [] else [Diagnostic.missingInNormal mina])
  let combined := combinedDF normal_metrics abnormal_metrics
  if combined.nrows = 0 then
    { diags := diags, result := Except.error ScalerError.noSamples }
  else if combined.cols = [] then
    { diags := diags, result := Except.error ScalerError.noFeatures }
  else if petsiteColumn ∈ (windowDF normal_metrics abnormal_metrics).cols then
    { diags := diags
      result := Except.ok (rankedCauses normal_metrics abnormal_metrics target_metric) }
  else
    { diags := diags ++ [Diagnostic.referenceMissing petsiteColumn]
      result := Except.ok [] }

/-- Truth value of a result being a normal return rather than an
uncaught exception. -/
def exceptToBool : Except ScalerError (List PotentialRootCause) → Bool
  | Except.ok _ => true
  | Except.error _ => false

/-- Embedding of `analyze_root_causes` of `src/code/hollow_rca.py`.
The function reduces and imputes local copies of the tables, but neither
result reaches the returned value (`impute_df` mutates a local copy that
is then dropped), so the embedding records only the returned list:
`root_cause_top_k` triples `(target_node, target_metric, rand())`, the
successive `np.random.rand()` draws being `rng 0, rng 1, ...`. -/
def hollow_analyze_root_causes (root_cause_top_k : Nat) (rng : Nat → ℚ)
    (graph : DiGraph) (target_node target_metric target_statistic : String)
    (normal_metrics abnormal_metrics : DataFrame) : List PotentialRootCause :=
  (List.range root_cause_top_k).map
    (fun i => { node := target_node, metric := target_metric, score := rng i })

/-- Default of the `root_cause_top_k` parameter of `make_hollow_rca`. -/
def hollowDefaultTopK : Nat := 3

/-! Concrete fixtures used to instantiate the universally quantified
statements below on explicit inputs. -/

/-- Empty dependency graph fixture. -/
def gFix : DiGraph := ⟨[]⟩

/-- Name of the target node used by the fixtures. -/
def nodeSvc : String := "svc"

/-- Metric name that selects the percentage-increase branch. -/
def latencyMetric : String := "latency"

/-- Metric name that selects the percentage-decrease branch. -/
def availabilityMetric : String := "availability"

/-- Statistic name used by the fixtures. -/
def statAvg : String := "avg"

/-- Column name fixture. -/
def colA : String := "A"

/-- Column name fixture. -/
def colA2 : String := "A2"

/-- Column name fixture. -/
def colB : String := "B"

/-- Column name fixture. -/
def colC01 : String := "c01"

/-- Column name fixture. -/
def colC11 : String := "c11"

/-- Normal table of the main fixture: reference column plus two columns
identical to it and one decreasing column. -/
def nFixF : DataFrame :=
  { cols := ["PetSite", "A", "A2", "B"]
    nrows := 3
    data := fun c =>
      if c = "PetSite" then [1, 2, 3]
      else if c = "A" then [1, 2, 3]
      else if c = "A2" then [1, 2, 3]
      else if c = "B" then [3, 2, 1]
      else [] }

/-- Abnormal table of the main fixture. -/
def aFixF : DataFrame :=
  { cols := ["PetSite", "A", "A2", "B"]
    nrows := 2
    data := fun c =>
      if c = "PetSite" then [4, 5]
      else if c = "A" then [4, 5]
      else if c = "A2" then [4, 5]
      else if c = "B" then [0, 0]
      else [] }

/-- Output of the pipeline on the main fixture: the columns identical to
the reference one score 1 and keep their original relative order; the
KS statistic of the remaining column is 1/5. -/
def rcListF : List PotentialRootCause :=
  [ { node := "A", metric := "latency", score := 1 },
    { node := "A2", metric := "latency", score := 1 },
    { node := "B", metric := "latency", score := 5/6 } ]

/-- Element of `rcListF` with a non-zero KS statistic. -/
def prcB : PotentialRootCause := { node := "B", metric := "latency", score := 5/6 }

/-- Normal table whose window head is non-zero for column A after scaling. -/
def nFixC3 : DataFrame :=
  { cols := ["PetSite", "A"], nrows := 1
    data := fun c => if c = "PetSite" then [1] else if c = "A" then [2] else [] }

/-- Abnormal table matching `nFixC3`. -/
def aFixC3 : DataFrame :=
  { cols := ["PetSite", "A"], nrows := 2
    data := fun c => if c = "PetSite" then [2, 3] else if c = "A" then [0, 4] else [] }

/-- Normal table of the short-window fixture (three combined rows, and a
scaled window starting at zero, exercising division by zero). -/
def nFixC8 : DataFrame :=
  { cols := ["PetSite", "A"], nrows := 2
    data := fun c => if c = "PetSite" then [1, 2] else if c = "A" then [1, 2] else [] }

/-- Abnormal table matching `nFixC8`. -/
def aFixC8 : DataFrame :=
  { cols := ["PetSite", "A"], nrows := 1
    data := fun c => if c = "PetSite" then [3] else if c = "A" then [3] else [] }

/-- Normal table whose column A is constant across the combined table. -/
def nFixC7 : DataFrame :=
  { cols := ["PetSite", "A"], nrows := 2
    data := fun c => if c = "PetSite" then [1, 2] else if c = "A" then [2, 2] else [] }

/-- Abnormal table matching `nFixC7`; column A stays at the constant value. -/
def aFixC7 : DataFrame :=
  { cols := ["PetSite", "A"], nrows := 1
    data := fun c => if c = "PetSite" then [3] else if c = "A" then [2] else [] }

/-- One-column table with only column A. -/
def dfOnlyA : DataFrame :=
  { cols := ["A"], nrows := 1, data := fun c => if c = "A" then [1] else [] }

/-- One-column table with only column B; its column set is disjoint from
`dfOnlyA`. -/
def dfOnlyB : DataFrame :=
  { cols := ["B"], nrows := 1, data := fun c => if c = "B" then [2] else [] }

/-- One-column table with only column C. -/
def dfOnlyC : DataFrame :=
  { cols := ["C"], nrows := 1, data := fun c => if c = "C" then [3] else [] }

/-- One-column table with only column D; its column set is disjoint from
`dfOnlyC`. -/
def dfOnlyD : DataFrame :=
  { cols := ["D"], nrows := 1, data := fun c => if c = "D" then [4] else [] }

/-- Aligned tables without the reference column. -/
def nFixA : DataFrame :=
  { cols := ["A"], nrows := 1, data := fun c => if c = "A" then [1] else [] }

/-- Abnormal table matching `nFixA`. -/
def aFixA : DataFrame :=
  { cols := ["A"], nrows := 1, data := fun c => if c = "A" then [2] else [] }

/-- Eleven column names, to exercise the top-10 cutoff. -/
def colsC6 : List String :=
  ["c01", "c02", "c03", "c04", "c05", "c06", "c07", "c08", "c09", "c10", "c11"]

/-- Final value of each of the eleven columns; chosen so the scaled
percentage changes are the pairwise distinct values 50, 100, ..., 550. -/
def mOf : String → ℚ
  | "c01" => 3 | "c02" => 4 | "c03" => 5 | "c04" => 6 | "c05" => 7 | "c06" => 8
  | "c07" => 9 | "c08" => 10 | "c09" => 11 | "c10" => 12 | "c11" => 13 | _ => 0

/-- Normal table of the eleven-column fixture. -/
def nFixC6 : DataFrame := { cols := colsC6, nrows := 2, data := fun _ => [2, 0] }

/-- Abnormal table of the eleven-column fixture. -/
def aFixC6 : DataFrame := { cols := colsC6, nrows := 1, data := fun c => [mOf c] }

/-- Deterministic stand-in for the stream of `np.random.rand()` draws. -/
def rngId : Nat → ℚ := fun i => i

/-- Stub output element fixture. -/
def prcSvc0 : PotentialRootCause := { node := "svc", metric := "latency", score := 0 }

/-! Helper lemmas. -/

theorem foldr_max_nonneg (l : List ℚ) : 0 ≤ l.foldr max 0 := by
  induction l with
  | nil => exact le_refl 0
  | cons x xs ih => exact le_trans ih (le_max_right x _)

theorem ksStat_nonneg (xs ys : List ℚ) : 0 ≤ ksStat xs ys :=
  foldr_max_nonneg _

theorem invScore_bounds (D : ℚ) (hD : 0 ≤ D) :
    0 < 1 / (1 + D) ∧ 1 / (1 + D) ≤ 1 ∧ (1 / (1 + D) = 1 ↔ D = 0) := by
  have h1 : (0:ℚ) < 1 + D := by linarith
  refine ⟨by positivity, ?_, ?_⟩
  · rw [div_le_one h1]
    linarith
  · rw [div_eq_one_iff_eq (ne_of_gt h1)]
    constructor
    · intro h
      linarith
    · intro h
      rw [h, add_zero]

theorem pcGe_total (a b : PChange) : pcGe a b = true ∨ pcGe b a = true := by
  cases a <;> cases b <;> simp [pcGe]
  exact le_total _ _

theorem pcGe_trans (a b c : PChange) (h1 : pcGe a b = true) (h2 : pcGe b c = true) :
    pcGe a c = true := by
  cases a <;> cases b <;> cases c <;> simp_all [pcGe]
  exact le_trans h2 h1

theorem filter_orderedInsert_pos {α : Type} (r : α → α → Prop) [DecidableRel r]
    (p : α → Bool) (x : α) (hx : p x = true)
    (hcut : ∀ y, p y = true → r x y) (M : List α) :
    (List.orderedInsert r x M).filter p = x :: M.filter p := by
  induction M with
  | nil => simp [List.orderedInsert, hx]
  | cons y M ih =>
    by_cases hr : r x y
    · rw [List.orderedInsert, if_pos hr, List.filter_cons_of_pos hx]
    · have hpy : p y = false := by
        cases hpy : p y
        · rfl
        · exact absurd (hcut y hpy) hr
      rw [List.orderedInsert, if_neg hr, List.filter_cons_of_neg (by simp [hpy]), ih,
        List.filter_cons_of_neg (by simp [hpy])]

theorem filter_orderedInsert_neg {α : Type} (r : α → α → Prop) [DecidableRel r]
    (p : α → Bool) (x : α) (hx : p x = false) (M : List α) :
    (List.orderedInsert r x M).filter p = M.filter p := by
  induction M with
  | nil => simp [List.orderedInsert, hx]
  | cons y M ih =>
    by_cases hr : r x y
    · rw [List.orderedInsert, if_pos hr, List.filter_cons_of_neg (by simp [hx])]
    · cases hpy : p y
      · rw [List.orderedInsert, if_neg hr, List.filter_cons_of_neg (by simp [hpy]), ih,
          List.filter_cons_of_neg (by simp [hpy])]
      · rw [List.orderedInsert, if_neg hr, List.filter_cons_of_pos hpy, ih,
          List.filter_cons_of_pos hpy]

theorem filter_insertionSort {α : Type} (r : α → α → Prop) [DecidableRel r]
    (p : α → Bool) (hcompat : ∀ x y, p x = true → p y = true → r x y) (L : List α) :
    (List.insertionSort r L).filter p = L.filter p := by
  induction L with
  | nil => rfl
  | cons x L ih =>
    rw [List.insertionSort]
    cases hx : p x
    · rw [filter_orderedInsert_neg r p x hx, ih, List.filter_cons_of_neg (by simp [hx])]
    · rw [filter_orderedInsert_pos r p x hx (fun y hy => hcompat x y hx hy), ih,
        List.filter_cons_of_pos hx]

theorem foldl_min_le_init (l : List ℚ) : ∀ a : ℚ, l.foldl min a ≤ a := by
  induction l with
  | nil => intro a; exact le_refl a
  | cons x l ih => intro a; exact le_trans (ih (min a x)) (min_le_left a x)

theorem foldl_min_le_mem (l : List ℚ) : ∀ a x : ℚ, x ∈ l → l.foldl min a ≤ x := by
  induction l with
  | nil => intro a x hx; cases hx
  | cons y l ih =>
    intro a x hx
    rcases List.mem_cons.1 hx with h | h
    · subst h
      exact le_trans (foldl_min_le_init l (min a x)) (min_le_right a x)
    · exact ih (min a y) x h

theorem init_le_foldl_max (l : List ℚ) : ∀ a : ℚ, a ≤ l.foldl max a := by
  induction l with
  | nil => intro a; exact le_refl a
  | cons x l ih => intro a; exact le_trans (le_max_left a x) (ih (max a x))

theorem mem_le_foldl_max (l : List ℚ) : ∀ a x : ℚ, x ∈ l → x ≤ l.foldl max a := by
  induction l with
  | nil => intro a x hx; cases hx
  | cons y l ih =>
    intro a x hx
    rcases List.mem_cons.1 hx with h | h
    · subst h
      exact le_trans (le_max_right a x) (init_le_foldl_max l (max a x))
    · exact ih (max a y) x h

theorem listMin_le_mem (xs : List ℚ) (x : ℚ) (hx : x ∈ xs) : listMin xs ≤ x := by
  cases xs with
  | nil => cases hx
  | cons y ys =>
    rcases List.mem_cons.1 hx with h | h
    · subst h
      exact foldl_min_le_init ys x
    · exact foldl_min_le_mem ys y x h

theorem mem_le_listMax (xs : List ℚ) (x : ℚ) (hx : x ∈ xs) : x ≤ listMax xs := by
  cases xs with
  | nil => cases hx
  | cons y ys =>
    rcases List.mem_cons.1 hx with h | h
    · subst h
      exact init_le_foldl_max ys x
    · exact mem_le_foldl_max ys y x h

theorem analyze_result_ok (g : DiGraph) (tn tm ts : String) (n a : DataFrame)
    (l : List PotentialRootCause)
    (h : (functional_analyze_root_causes g tn tm ts n a).result = Except.ok l) :
    (petsiteColumn ∉ (windowDF n a).cols ∧ l = []) ∨
    (petsiteColumn ∈ (windowDF n a).cols ∧ l = rankedCauses n a tm) := by
  simp only [functional_analyze_root_causes] at h
  split at h
  · cases h
  · split at h
    · cases h
    · split at h
      · rename_i hps
        exact Or.inr ⟨hps, (Except.ok.injEq _ _ ▸ h).symm⟩
      · rename_i hps
        exact Or.inl ⟨hps, (Except.ok.injEq _ _ ▸ h).symm⟩

theorem mem_rankedCauses (n a : DataFrame) (tm : String) (prc : PotentialRootCause)
    (h : prc ∈ rankedCauses n a tm) :
    ∃ c ∈ (topColumnsPercentage n a tm).filter (fun c => c ≠ petsiteColumn),
      prc = { node := c, metric := tm,
              score := 1 / (1 + ksStat ((windowDF n a).data petsiteColumn)
                ((windowDF n a).data c)) } := by
  unfold rankedCauses at h
  rcases List.mem_map.1 h with ⟨p, hp, rfl⟩
  have hp2 : p ∈ ksScoreList n a tm :=
    (List.perm_insertionSort scoreRel (ksScoreList n a tm)).subset hp
  unfold ksScoreList at hp2
  rcases List.mem_map.1 hp2 with ⟨c, hc, rfl⟩
  exact ⟨c, hc, rfl⟩

/-! Claim theorems. -/

/-- Claim C1 (code defect): on reduced tables with an empty column
intersection the source prints both missing-column diagnostics but then
hands a zero-column table to `MinMaxScaler.fit_transform`, which raises
`ValueError` instead of letting the function return an empty sequence.
Evaluated here on concrete disjoint one-column tables. -/
theorem C1_empty_intersection_raises :
    functional_analyze_root_causes gFix nodeSvc latencyMetric statAvg dfOnlyA dfOnlyB =
      { diags := [Diagnostic.missingInAbnormal [colA], Diagnostic.missingInNormal [colB]]
        result := Except.error ScalerError.noFeatures } := by
  decide

/-- Claim C2 counterexample: an input whose aligned table lacks the
reference column on which analyze does not return an empty sequence but
raises (the empty-intersection defect reaches the scaler first). -/
theorem C2_absent_reference_counterexample :
    petsiteColumn ∉ (windowDF dfOnlyA dfOnlyB).cols ∧
    (functional_analyze_root_causes gFix nodeSvc latencyMetric statAvg dfOnlyA dfOnlyB).result =
      Except.error ScalerError.noFeatures := by
  decide

/-- Claim C2 (amended): when the aligned column set is non-empty, the
combined table has at least one row, and the reference column is absent
from the aligned (windowed) table, analyze returns an empty sequence,
emits the reference-missing diagnostic, and raises no fault. -/
theorem C2_reference_missing_returns_empty (g : DiGraph) (tn tm ts : String)
    (n a : DataFrame)
    (h1 : commonColumns n a ≠ []) (h2 : (combinedDF n a).nrows ≠ 0)
    (h3 : petsiteColumn ∉ (windowDF n a).cols) :
    (functional_analyze_root_causes g tn tm ts n a).result = Except.ok [] ∧
    Diagnostic.referenceMissing petsiteColumn ∈
      (functional_analyze_root_causes g tn tm ts n a).diags := by
  simp only [functional_analyze_root_causes]
  rw [if_neg h2, if_neg (show ¬(combinedDF n a).cols = [] from h1), if_neg h3]
  exact ⟨rfl, by simp⟩

/-- Claim C2 witness: aligned one-column tables without the reference
column give the empty result and the diagnostic. -/
theorem C2_reference_missing_witness :
    (functional_analyze_root_causes gFix nodeSvc latencyMetric statAvg nFixA aFixA).result =
      Except.ok [] ∧
    Diagnostic.referenceMissing petsiteColumn ∈
      (functional_analyze_root_causes gFix nodeSvc latencyMetric statAvg nFixA aFixA).diags :=
  C2_reference_missing_returns_empty gFix nodeSvc latencyMetric statAvg nFixA aFixA
    (by decide) (by decide) (by decide)

/-- Claim C3: for every column of the window whose first entry is
non-zero, the change filter computes `(first - last) / first * 100` when
the target metric is availability and `(last - first) / first * 100` for
every other target metric, `first` and `last` being the first and last
rows of the window. -/
theorem C3_percentage_change_formula (n a : DataFrame) (tm c : String) (first lst : ℚ)
    (hf : ((windowDF n a).data c).head? = some first)
    (hl : ((windowDF n a).data c).getLast? = some lst)
    (h0 : first ≠ 0) :
    (tm = availabilityMetric →
      percentageChange (windowDF n a) tm c = PChange.fin ((first - lst) / first * 100)) ∧
    (tm ≠ availabilityMetric →
      percentageChange (windowDF n a) tm c = PChange.fin ((lst - first) / first * 100)) := by
  have hfd : ((windowDF n a).data c).headD 0 = first := by
    rw [List.headD_eq_head?_getD, hf]
    rfl
  have hld : ((windowDF n a).data c).getLastD 0 = lst := by
    rw [List.getLastD_eq_getLast?, hl]
    rfl
  constructor
  · intro htm
    rw [percentageChange, hfd, hld, if_pos (by rw [htm]; rfl), fdiv, if_neg h0]
    rfl
  · intro htm
    rw [percentageChange, hfd, hld, if_neg (fun hh => htm (by rw [availabilityMetric]; exact hh)),
      fdiv, if_neg h0]
    rfl

/-- Claim C3 witness: on the concrete fixture the scaled window of
column A is `[1/2, 0, 1]`, and the availability branch yields
`((1/2) - 1) / (1/2) * 100 = -100`. -/
theorem C3_percentage_change_witness :
    (availabilityMetric = availabilityMetric →
      percentageChange (windowDF nFixC3 aFixC3) availabilityMetric colA =
        PChange.fin ((1/2 - 1) / (1/2) * 100)) ∧
    (availabilityMetric ≠ availabilityMetric →
      percentageChange (windowDF nFixC3 aFixC3) availabilityMetric colA =
        PChange.fin ((1 - 1/2) / (1/2) * 100)) :=
  C3_percentage_change_formula nFixC3 aFixC3 availabilityMetric colA (1/2) 1
    (by simp [windowDF, scaledDF, combinedDF, commonColumns, nFixC3, aFixC3, colA,
      minmaxScale, listMin, listMax, tailLen]; norm_num)
    (by simp [windowDF, scaledDF, combinedDF, commonColumns, nFixC3, aFixC3, colA,
      minmaxScale, listMin, listMax, tailLen]; norm_num)
    (by norm_num)

/-- Claim C7: a zero-variance column of the combined table (its maximum
equals its minimum) is scaled to the safe value 0 in every entry, with
no undefined value: sklearn replaces the zero range by 1. -/
theorem C7_zero_variance_scales_to_zero (n a : DataFrame) (c : String)
    (h : listMax ((combinedDF n a).data c) = listMin ((combinedDF n a).data c)) :
    (scaledDF n a).data c = List.replicate ((combinedDF n a).data c).length 0 := by
  show minmaxScale ((combinedDF n a).data c) = _
  rw [minmaxScale]
  rw [h, sub_self, if_pos rfl]
  refine List.eq_replicate_iff.2 ⟨List.length_map _ _, ?_⟩
  intro b hb
  rcases List.mem_map.1 hb with ⟨x, hx, rfl⟩
  have h1 := listMin_le_mem _ x hx
  have h2 := mem_le_listMax _ x hx
  rw [h] at h2
  rw [le_antisymm h2 h1, sub_self, zero_div]

/-- Claim C7 witness: the constant column A of the combined fixture
table (values 2, 2, 2) scales to `[0, 0, 0]`. -/
theorem C7_zero_variance_witness :
    (scaledDF nFixC7 aFixC7).data colA =
      List.replicate ((combinedDF nFixC7 aFixC7).data colA).length 0 :=
  C7_zero_variance_scales_to_zero nFixC7 aFixC7 colA
    (by simp [combinedDF, nFixC7, aFixC7, colA, listMin, listMax])

/-- Claim C8 counterexample: an in-scope input shape described by the
specification (an empty column intersection) on which an exception
escapes the analyze call. -/
theorem C8_exception_counterexample :
    exceptToBool
      (functional_analyze_root_causes gFix nodeSvc latencyMetric statAvg dfOnlyC dfOnlyD).result =
      false := by
  decide

/-- Claim C8 (amended): for every input whose aligned column set is
non-empty and whose combined table has at least one row — including
combined tables with fewer than five rows and windows whose first row
holds a zero value — analyze completes without an exception or numeric
fault escaping the call. -/
theorem C8_no_fault_on_nonempty (g : DiGraph) (tn tm ts : String) (n a : DataFrame)
    (h1 : commonColumns n a ≠ []) (h2 : (combinedDF n a).nrows ≠ 0) :
    exceptToBool (functional_analyze_root_causes g tn tm ts n a).result = true := by
  simp only [functional_analyze_root_causes]
  rw [if_neg h2, if_neg (show ¬(combinedDF n a).cols = [] from h1)]
  split
  · rfl
  · rfl

/-- Claim C8 witness: a three-row combined table (fewer than five rows)
whose scaled window starts at zero, so the percentage change divides by
zero; analyze still returns normally. -/
theorem C8_no_fault_witness :
    exceptToBool
      (functional_analyze_root_causes gFix nodeSvc latencyMetric statAvg nFixC8 aFixC8).result =
      true :=
  C8_no_fault_on_nonempty gFix nodeSvc latencyMetric statAvg nFixC8 aFixC8
    (by decide) (by decide)

/-! Evaluation of the pipeline stages on the main fixture, used to
instantiate the ranking claims on a concrete input. -/

theorem wcolsF : (windowDF nFixF aFixF).cols = ["PetSite", "A", "A2", "B"] := by decide

theorem wPF : (windowDF nFixF aFixF).data petsiteColumn = [0, 1/4, 1/2, 3/4, 1] := by
  simp [windowDF, scaledDF, combinedDF, nFixF, aFixF, minmaxScale, listMin, listMax,
    tailLen, petsiteColumn]
  norm_num

theorem wAF : (windowDF nFixF aFixF).data colA = [0, 1/4, 1/2, 3/4, 1] := by
  simp [windowDF, scaledDF, combinedDF, nFixF, aFixF, minmaxScale, listMin, listMax,
    tailLen, colA]
  norm_num

theorem wA2F : (windowDF nFixF aFixF).data colA2 = [0, 1/4, 1/2, 3/4, 1] := by
  simp [windowDF, scaledDF, combinedDF, nFixF, aFixF, minmaxScale, listMin, listMax,
    tailLen, colA2]
  norm_num

theorem wBF : (windowDF nFixF aFixF).data colB = [1, 2/3, 1/3, 0, 0] := by
  simp [windowDF, scaledDF, combinedDF, nFixF, aFixF, minmaxScale, listMin, listMax,
    tailLen, colB]
  norm_num

theorem pcPF : percentageChange (windowDF nFixF aFixF) latencyMetric petsiteColumn =
    PChange.pinf := by
  simp [percentageChange, wPF, latencyMetric, fdiv, pcTimes100]

theorem pcAF : percentageChange (windowDF nFixF aFixF) latencyMetric colA =
    PChange.pinf := by
  simp [percentageChange, wAF, latencyMetric, fdiv, pcTimes100]

theorem pcA2F : percentageChange (windowDF nFixF aFixF) latencyMetric colA2 =
    PChange.pinf := by
  simp [percentageChange, wA2F, latencyMetric, fdiv, pcTimes100]

theorem pcBF : percentageChange (windowDF nFixF aFixF) latencyMetric colB =
    PChange.fin (-100) := by
  simp [percentageChange, wBF, latencyMetric, fdiv, pcTimes100]

theorem sortedF : sortedColumnsPercentage (windowDF nFixF aFixF) latencyMetric =
    ["PetSite", "A", "A2", "B"] := by
  have e1 : percentageChange (windowDF nFixF aFixF) latencyMetric ("PetSite") = PChange.pinf := pcPF
  have e2 : percentageChange (windowDF nFixF aFixF) latencyMetric ("A") = PChange.pinf := pcAF
  have e3 : percentageChange (windowDF nFixF aFixF) latencyMetric ("A2") = PChange.pinf := pcA2F
  have e4 : percentageChange (windowDF nFixF aFixF) latencyMetric ("B") = PChange.fin (-100) := pcBF
  simp [sortedColumnsPercentage, wcolsF, List.insertionSort, List.orderedInsert, pcKeyRel,
    e1, e2, e3, e4, pcGe]

theorem topF : topColumnsPercentage nFixF aFixF latencyMetric =
    ["PetSite", "A", "A2", "B"] := by
  rw [topColumnsPercentage, sortedF]
  rfl

theorem ksAF : ksStat ((windowDF nFixF aFixF).data petsiteColumn)
    ((windowDF nFixF aFixF).data colA) = 0 := by
  rw [wPF, wAF]
  norm_num [ksStat, ecdfCount, List.countP_cons]

theorem ksBF : ksStat ((windowDF nFixF aFixF).data petsiteColumn)
    ((windowDF nFixF aFixF).data colB) = 1/5 := by
  rw [wPF, wBF]
  norm_num [ksStat, ecdfCount, List.countP_cons]

theorem ksA2F : ksStat ((windowDF nFixF aFixF).data petsiteColumn)
    ((windowDF nFixF aFixF).data colA2) = 0 := by
  rw [wPF, wA2F]
  norm_num [ksStat, ecdfCount, List.countP_cons]

theorem ksListF : ksScoreList nFixF aFixF latencyMetric =
    [("A", 1), ("A2", 1), ("B", 5/6)] := by
  have eA : ksStat ((windowDF nFixF aFixF).data ("PetSite"))
      ((windowDF nFixF aFixF).data ("A")) = 0 := ksAF
  have eA2 : ksStat ((windowDF nFixF aFixF).data ("PetSite"))
      ((windowDF nFixF aFixF).data ("A2")) = 0 := ksA2F
  have eB : ksStat ((windowDF nFixF aFixF).data ("PetSite"))
      ((windowDF nFixF aFixF).data ("B")) = 1/5 := ksBF
  rw [ksScoreList, topF]
  simp [petsiteColumn, eA, eA2, eB]
  norm_num

theorem rankedF : rankedCauses nFixF aFixF latencyMetric = rcListF := by
  rw [rankedCauses, ksListF]
  have h1 : scoreRel ("A2", (1:ℚ)) ("B", 5/6) := by norm_num [scoreRel]
  have h2 : scoreRel ("A", (1:ℚ)) ("A2", 1) := by norm_num [scoreRel]
  simp [sortedByScore, List.insertionSort, List.orderedInsert, h1, h2, toRootCause,
    rcListF, latencyMetric]

theorem analyzeF : (functional_analyze_root_causes gFix nodeSvc latencyMetric statAvg
    nFixF aFixF).result = Except.ok rcListF := by
  simp only [functional_analyze_root_causes]
  rw [if_neg (by decide), if_neg (by decide), if_pos (by decide)]
  rw [rankedF]

/-- Claim C4: every returned score is `1 / (1 + D)` for the non-negative
two-sample KS distance `D` between the reference column and the
candidate column over the window; every score lies in `(0, 1]`, and a
score equals 1 exactly when `D = 0`. -/
theorem C4_score_bounds (g : DiGraph) (tn tm ts : String) (n a : DataFrame)
    (l : List PotentialRootCause) (prc : PotentialRootCause)
    (h : (functional_analyze_root_causes g tn tm ts n a).result = Except.ok l)
    (hm : prc ∈ l) :
    0 ≤ ksStat ((windowDF n a).data petsiteColumn) ((windowDF n a).data prc.node) ∧
    prc.score =
      1 / (1 + ksStat ((windowDF n a).data petsiteColumn) ((windowDF n a).data prc.node)) ∧
    0 < prc.score ∧ prc.score ≤ 1 ∧
    (prc.score = 1 ↔
      ksStat ((windowDF n a).data petsiteColumn) ((windowDF n a).data prc.node) = 0) := by
  rcases analyze_result_ok g tn tm ts n a l h with ⟨_, rfl⟩ | ⟨_, rfl⟩
  · cases hm
  · rcases mem_rankedCauses n a tm prc hm with ⟨c, hc, rfl⟩
    have hb := invScore_bounds
      (ksStat ((windowDF n a).data petsiteColumn) ((windowDF n a).data c))
      (ksStat_nonneg _ _)
    exact ⟨ksStat_nonneg _ _, rfl, hb.1, hb.2.1, hb.2.2⟩

/-- Claim C4 witness: the fixture output element for column B has score
`5/6 = 1 / (1 + 1/5)` with KS statistic `1/5`. -/
theorem C4_score_bounds_witness :
    0 ≤ ksStat ((windowDF nFixF aFixF).data petsiteColumn)
      ((windowDF nFixF aFixF).data prcB.node) ∧
    prcB.score = 1 / (1 + ksStat ((windowDF nFixF aFixF).data petsiteColumn)
      ((windowDF nFixF aFixF).data prcB.node)) ∧
    0 < prcB.score ∧ prcB.score ≤ 1 ∧
    (prcB.score = 1 ↔ ksStat ((windowDF nFixF aFixF).data petsiteColumn)
      ((windowDF nFixF aFixF).data prcB.node) = 0) :=
  C4_score_bounds gFix nodeSvc latencyMetric statAvg nFixF aFixF rcListF prcB analyzeF
    (by norm_num [rcListF, prcB])

/-- Claim C5: the returned sequence is sorted by descending similarity
score (adjacent pairs), and candidates of equal score keep the relative
order of the candidate list (the Python sort is stable): filtering the
result at any score value gives exactly the same-score candidates in
their original order. -/
theorem C5_sorted_stable (g : DiGraph) (tn tm ts : String) (n a : DataFrame)
    (l : List PotentialRootCause) (s : ℚ)
    (h : (functional_analyze_root_causes g tn tm ts n a).result = Except.ok l) :
    List.Chain' (fun x y => y.score ≤ x.score) l ∧
    (petsiteColumn ∈ (windowDF n a).cols →
      l.filter (fun prc => prc.score = s) =
        ((ksScoreList n a tm).map (toRootCause tm)).filter (fun prc => prc.score = s)) := by
  rcases analyze_result_ok g tn tm ts n a l h with ⟨hout, rfl⟩ | ⟨_, rfl⟩
  · exact ⟨List.chain'_nil, fun hmem => absurd hmem hout⟩
  · constructor
    · haveI ht : IsTotal (String × ℚ) scoreRel := ⟨fun p q => le_total q.2 p.2⟩
      haveI htr : IsTrans (String × ℚ) scoreRel := ⟨fun p q r h1 h2 => le_trans h2 h1⟩
      have hs : List.Sorted scoreRel (List.insertionSort scoreRel (ksScoreList n a tm)) :=
        List.sorted_insertionSort scoreRel _
      have hp : List.Pairwise (fun x y => y.score ≤ x.score)
          (List.map (toRootCause tm) (List.insertionSort scoreRel (ksScoreList n a tm))) :=
        List.pairwise_map.mpr hs
      exact hp.chain'
    · intro _
      unfold rankedCauses sortedByScore
      rw [List.filter_map, List.filter_map]
      congr 1
      refine filter_insertionSort scoreRel _ ?_ _
      intro x y hx hy
      have hx2 : (toRootCause tm x).score = s := of_decide_eq_true hx
      have hy2 : (toRootCause tm y).score = s := of_decide_eq_true hy
      show y.2 ≤ x.2
      exact le_of_eq (hy2.trans hx2.symm)

/-- Claim C5 witness: on the main fixture the two score-1 candidates A
and A2 keep their original order ahead of B. -/
theorem C5_sorted_stable_witness :
    List.Chain' (fun x y => y.score ≤ x.score) rcListF ∧
    (petsiteColumn ∈ (windowDF nFixF aFixF).cols →
      rcListF.filter (fun prc => prc.score = 1) =
        ((ksScoreList nFixF aFixF latencyMetric).map (toRootCause latencyMetric)).filter
          (fun prc => prc.score = 1)) :=
  C5_sorted_stable gFix nodeSvc latencyMetric statAvg nFixF aFixF rcListF 1 analyzeF

/-- Claim C9: every returned root cause carries the target metric, a
node that is a column of both input tables (the aligned intersection),
and never the reference column, even when the reference column is in
the top-10 candidate list. -/
theorem C9_result_fields (g : DiGraph) (tn tm ts : String) (n a : DataFrame)
    (l : List PotentialRootCause) (prc : PotentialRootCause)
    (h : (functional_analyze_root_causes g tn tm ts n a).result = Except.ok l)
    (hm : prc ∈ l) :
    prc.metric = tm ∧ prc.node ∈ n.cols ∧ prc.node ∈ a.cols ∧ prc.node ≠ petsiteColumn := by
  rcases analyze_result_ok g tn tm ts n a l h with ⟨_, rfl⟩ | ⟨_, rfl⟩
  · cases hm
  · rcases mem_rankedCauses n a tm prc hm with ⟨c, hc, rfl⟩
    rcases List.mem_filter.1 hc with ⟨htop, hne⟩
    have hsorted : c ∈ sortedColumnsPercentage (windowDF n a) tm :=
      List.take_subset 10 _ htop
    have hcommon : c ∈ commonColumns n a :=
      (List.perm_insertionSort (pcKeyRel (windowDF n a) tm) (windowDF n a).cols).subset hsorted
    rcases List.mem_filter.1 hcommon with ⟨hn, ha⟩
    exact ⟨rfl, hn, of_decide_eq_true ha, of_decide_eq_true hne⟩

/-- Claim C9 witness: on the main fixture (where the reference column
is in the top-10 list) the element for column B carries the target
metric, columns of both tables, and is not the reference column. -/
theorem C9_result_fields_witness :
    prcB.metric = latencyMetric ∧ prcB.node ∈ nFixF.cols ∧ prcB.node ∈ aFixF.cols ∧
    prcB.node ≠ petsiteColumn :=
  C9_result_fields gFix nodeSvc latencyMetric statAvg nFixF aFixF rcListF prcB analyzeF
    (by norm_num [rcListF, prcB])

/-- Claim C10: the hollow stub returns exactly `root_cause_top_k`
entries (3 by default), each with the target node and target metric,
and its output is independent of the contents of the metric tables. -/
theorem C10_hollow_stub (k : Nat) (rng : Nat → ℚ) (g : DiGraph) (tn tm ts : String)
    (n a n2 a2 : DataFrame) (prc : PotentialRootCause)
    (hm : prc ∈ hollow_analyze_root_causes k rng g tn tm ts n a) :
    (hollow_analyze_root_causes k rng g tn tm ts n a).length = k ∧
    prc.node = tn ∧ prc.metric = tm ∧
    hollow_analyze_root_causes k rng g tn tm ts n a =
      hollow_analyze_root_causes k rng g tn tm ts n2 a2 ∧
    (hollow_analyze_root_causes hollowDefaultTopK rng g tn tm ts n a).length = 3 := by
  refine ⟨?_, ?_, ?_, rfl, ?_⟩
  · simp [hollow_analyze_root_causes]
  · rcases List.mem_map.1 hm with ⟨i, _, rfl⟩
    rfl
  · rcases List.mem_map.1 hm with ⟨i, _, rfl⟩
    rfl
  · simp [hollow_analyze_root_causes, hollowDefaultTopK]

/-- Claim C10 witness: with `root_cause_top_k = 2` and the identity
draw stream the stub returns two entries for the target node and
metric, unchanged under swapping the tables. -/
theorem C10_hollow_stub_witness :
    (hollow_analyze_root_causes 2 rngId gFix nodeSvc latencyMetric statAvg
      dfOnlyA dfOnlyB).length = 2 ∧
    prcSvc0.node = nodeSvc ∧ prcSvc0.metric = latencyMetric ∧
    hollow_analyze_root_causes 2 rngId gFix nodeSvc latencyMetric statAvg dfOnlyA dfOnlyB =
      hollow_analyze_root_causes 2 rngId gFix nodeSvc latencyMetric statAvg nFixA aFixA ∧
    (hollow_analyze_root_causes hollowDefaultTopK rngId gFix nodeSvc latencyMetric statAvg
      dfOnlyA dfOnlyB).length = 3 :=
  C10_hollow_stub 2 rngId gFix nodeSvc latencyMetric statAvg dfOnlyA dfOnlyB nFixA aFixA
    prcSvc0
    (by norm_num [hollow_analyze_root_causes, List.range_succ, prcSvc0, rngId, nodeSvc,
      latencyMetric])

/-! Evaluation of the change filter on the eleven-column fixture. -/

theorem pcC6_01 : percentageChange (windowDF nFixC6 aFixC6) latencyMetric ("c01") =
    PChange.fin 50 := by
  have hw : (windowDF nFixC6 aFixC6).data ("c01") = [2/3, 0, 1] := by
    simp [windowDF, scaledDF, combinedDF, nFixC6, aFixC6, mOf, minmaxScale, listMin,
      listMax, tailLen] <;> norm_num
  simp [percentageChange, hw, latencyMetric, fdiv, pcTimes100] <;> norm_num

theorem pcC6_02 : percentageChange (windowDF nFixC6 aFixC6) latencyMetric ("c02") =
    PChange.fin 100 := by
  have hw : (windowDF nFixC6 aFixC6).data ("c02") = [2/4, 0, 1] := by
    simp [windowDF, scaledDF, combinedDF, nFixC6, aFixC6, mOf, minmaxScale, listMin,
      listMax, tailLen] <;> norm_num
  simp [percentageChange, hw, latencyMetric, fdiv, pcTimes100] <;> norm_num

theorem pcC6_03 : percentageChange (windowDF nFixC6 aFixC6) latencyMetric ("c03") =
    PChange.fin 150 := by
  have hw : (windowDF nFixC6 aFixC6).data ("c03") = [2/5, 0, 1] := by
    simp [windowDF, scaledDF, combinedDF, nFixC6, aFixC6, mOf, minmaxScale, listMin,
      listMax, tailLen] <;> norm_num
  simp [percentageChange, hw, latencyMetric, fdiv, pcTimes100] <;> norm_num

theorem pcC6_04 : percentageChange (windowDF nFixC6 aFixC6) latencyMetric ("c04") =
    PChange.fin 200 := by
  have hw : (windowDF nFixC6 aFixC6).data ("c04") = [2/6, 0, 1] := by
    simp [windowDF, scaledDF, combinedDF, nFixC6, aFixC6, mOf, minmaxScale, listMin,
      listMax, tailLen] <;> norm_num
  simp [percentageChange, hw, latencyMetric, fdiv, pcTimes100] <;> norm_num

theorem pcC6_05 : percentageChange (windowDF nFixC6 aFixC6) latencyMetric ("c05") =
    PChange.fin 250 := by
  have hw : (windowDF nFixC6 aFixC6).data ("c05") = [2/7, 0, 1] := by
    simp [windowDF, scaledDF, combinedDF, nFixC6, aFixC6, mOf, minmaxScale, listMin,
      listMax, tailLen] <;> norm_num
  simp [percentageChange, hw, latencyMetric, fdiv, pcTimes100] <;> norm_num

theorem pcC6_06 : percentageChange (windowDF nFixC6 aFixC6) latencyMetric ("c06") =
    PChange.fin 300 := by
  have hw : (windowDF nFixC6 aFixC6).data ("c06") = [2/8, 0, 1] := by
    simp [windowDF, scaledDF, combinedDF, nFixC6, aFixC6, mOf, minmaxScale, listMin,
      listMax, tailLen] <;> norm_num
  simp [percentageChange, hw, latencyMetric, fdiv, pcTimes100] <;> norm_num

theorem pcC6_07 : percentageChange (windowDF nFixC6 aFixC6) latencyMetric ("c07") =
    PChange.fin 350 := by
  have hw : (windowDF nFixC6 aFixC6).data ("c07") = [2/9, 0, 1] := by
    simp [windowDF, scaledDF, combinedDF, nFixC6, aFixC6, mOf, minmaxScale, listMin,
      listMax, tailLen] <;> norm_num
  simp [percentageChange, hw, latencyMetric, fdiv, pcTimes100] <;> norm_num

theorem pcC6_08 : percentageChange (windowDF nFixC6 aFixC6) latencyMetric ("c08") =
    PChange.fin 400 := by
  have hw : (windowDF nFixC6 aFixC6).data ("c08") = [2/10, 0, 1] := by
    simp [windowDF, scaledDF, combinedDF, nFixC6, aFixC6, mOf, minmaxScale, listMin,
      listMax, tailLen] <;> norm_num
  simp [percentageChange, hw, latencyMetric, fdiv, pcTimes100] <;> norm_num

theorem pcC6_09 : percentageChange (windowDF nFixC6 aFixC6) latencyMetric ("c09") =
    PChange.fin 450 := by
  have hw : (windowDF nFixC6 aFixC6).data ("c09") = [2/11, 0, 1] := by
    simp [windowDF, scaledDF, combinedDF, nFixC6, aFixC6, mOf, minmaxScale, listMin,
      listMax, tailLen] <;> norm_num
  simp [percentageChange, hw, latencyMetric, fdiv, pcTimes100] <;> norm_num

theorem pcC6_10 : percentageChange (windowDF nFixC6 aFixC6) latencyMetric ("c10") =
    PChange.fin 500 := by
  have hw : (windowDF nFixC6 aFixC6).data ("c10") = [2/12, 0, 1] := by
    simp [windowDF, scaledDF, combinedDF, nFixC6, aFixC6, mOf, minmaxScale, listMin,
      listMax, tailLen] <;> norm_num
  simp [percentageChange, hw, latencyMetric, fdiv, pcTimes100] <;> norm_num

theorem pcC6_11 : percentageChange (windowDF nFixC6 aFixC6) latencyMetric ("c11") =
    PChange.fin 550 := by
  have hw : (windowDF nFixC6 aFixC6).data ("c11") = [2/13, 0, 1] := by
    simp [windowDF, scaledDF, combinedDF, nFixC6, aFixC6, mOf, minmaxScale, listMin,
      listMax, tailLen] <;> norm_num
  simp [percentageChange, hw, latencyMetric, fdiv, pcTimes100] <;> norm_num

theorem wcolsC6 : (windowDF nFixC6 aFixC6).cols = colsC6 := by decide

theorem sortedC6 : sortedColumnsPercentage (windowDF nFixC6 aFixC6) latencyMetric =
    ["c11", "c10", "c09", "c08", "c07", "c06", "c05", "c04", "c03", "c02", "c01"] := by
  norm_num [sortedColumnsPercentage, wcolsC6, colsC6, List.insertionSort,
    List.orderedInsert, pcKeyRel, pcC6_01, pcC6_02, pcC6_03, pcC6_04, pcC6_05, pcC6_06, pcC6_07, pcC6_08, pcC6_09, pcC6_10, pcC6_11, pcGe]

/-- Claim C6: the candidate set is the 10 columns with the largest
signed percentage change, in descending order of that change (every
kept column dominates every dropped one in the `sort_values` order,
with `NaN` last), and is all columns when fewer than 10 exist. -/
theorem C6_top_candidates (n a : DataFrame) (tm : String) (c1 c2 : String)
    (h1 : c1 ∈ topColumnsPercentage n a tm)
    (h2 : c2 ∈ (sortedColumnsPercentage (windowDF n a) tm).drop 10) :
    (topColumnsPercentage n a tm).length = min 10 (windowDF n a).cols.length ∧
    List.Pairwise (pcKeyRel (windowDF n a) tm) (topColumnsPercentage n a tm) ∧
    pcKeyRel (windowDF n a) tm c1 c2 ∧
    List.Perm (sortedColumnsPercentage (windowDF n a) tm) (windowDF n a).cols ∧
    ((windowDF n a).cols.length ≤ 10 →
      List.Perm (topColumnsPercentage n a tm) (windowDF n a).cols) := by
  haveI ht : IsTotal String (pcKeyRel (windowDF n a) tm) := ⟨fun x y => pcGe_total _ _⟩
  haveI htr : IsTrans String (pcKeyRel (windowDF n a) tm) :=
    ⟨fun x y z hxy hyz => pcGe_trans _ _ _ hxy hyz⟩
  have hperm : List.Perm (sortedColumnsPercentage (windowDF n a) tm) (windowDF n a).cols :=
    List.perm_insertionSort (pcKeyRel (windowDF n a) tm) (windowDF n a).cols
  have hsorted : List.Sorted (pcKeyRel (windowDF n a) tm)
      (sortedColumnsPercentage (windowDF n a) tm) :=
    List.sorted_insertionSort (pcKeyRel (windowDF n a) tm) (windowDF n a).cols
  refine ⟨?_, ?_, ?_, hperm, ?_⟩
  · show ((sortedColumnsPercentage (windowDF n a) tm).take 10).length = _
    rw [List.length_take, hperm.length_eq]
  · exact hsorted.sublist (List.take_sublist 10 _)
  · have hsplit : List.Pairwise (pcKeyRel (windowDF n a) tm)
        ((sortedColumnsPercentage (windowDF n a) tm).take 10 ++
          (sortedColumnsPercentage (windowDF n a) tm).drop 10) := by
      rw [List.take_append_drop]
      exact hsorted
    exact (List.pairwise_append.1 hsplit).2.2 c1 h1 c2 h2
  · intro hle
    have htake : (sortedColumnsPercentage (windowDF n a) tm).take 10 =
        sortedColumnsPercentage (windowDF n a) tm :=
      List.take_of_length_le (by rw [hperm.length_eq]; exact hle)
    show List.Perm ((sortedColumnsPercentage (windowDF n a) tm).take 10) _
    rw [htake]
    exact hperm

/-- Claim C6 witness: with eleven columns of pairwise distinct
percentage changes 50, ..., 550, the top-10 list keeps the largest ten
in descending order and drops the smallest column c01. -/
theorem C6_top_candidates_witness :
    (topColumnsPercentage nFixC6 aFixC6 latencyMetric).length =
      min 10 (windowDF nFixC6 aFixC6).cols.length ∧
    List.Pairwise (pcKeyRel (windowDF nFixC6 aFixC6) latencyMetric)
      (topColumnsPercentage nFixC6 aFixC6 latencyMetric) ∧
    pcKeyRel (windowDF nFixC6 aFixC6) latencyMetric colC11 colC01 ∧
    List.Perm (sortedColumnsPercentage (windowDF nFixC6 aFixC6) latencyMetric)
      (windowDF nFixC6 aFixC6).cols ∧
    ((windowDF nFixC6 aFixC6).cols.length ≤ 10 →
      List.Perm (topColumnsPercentage nFixC6 aFixC6 latencyMetric)
        (windowDF nFixC6 aFixC6).cols) :=
  C6_top_candidates nFixC6 aFixC6 latencyMetric colC11 colC01
    (by rw [topColumnsPercentage, sortedC6]; decide)
    (by rw [sortedC6]; decide)
